import Mathlib

/-!
Verification of the financial projection engine of the AI-Financial-Assistant
repository against its natural-language specification.

The embedding below translates the TypeScript source into Lean:

* the data model comes from src/types.ts (display-only string fields such as
  id, name, date, description and category are omitted: no computation under
  verification reads them);
* the projection simulator comes from generateProjectionData in
  src/components/FinancialCharts.tsx;
* the risk classifiers come from src/components/RiskAnalysis.tsx and
  src/components/CreditCoach.tsx, and the dashboard aggregates from
  src/App.tsx;
* the simulated-loan constructor comes from addLoan in
  src/components/SimulationControl.tsx.

JavaScript numbers are embedded as rationals (exact arithmetic): all the
properties checked here are about the algebraic structure of the
computations, not about floating-point rounding.  Where the source divides
by zero (which yields NaN in JavaScript) the rational embedding yields 0;
each such place is flagged by a comment.

To make the aliasing/frame contract of the simulator expressible, the file
also contains a second, store-based embedding (objects addressed by
references into an explicit store, mutation as store update), faithful to
JavaScript object semantics, and a refinement proof relating it to the pure
embedding.
-/

namespace FinAssist

/-- type field of a Transaction: src/types.ts, TransactionType. -/
inductive TransactionType
  | income
  | expense
deriving DecidableEq, Repr

/-- src/types.ts Transaction (amount and type; display fields omitted). -/
structure Transaction where
  amount : ℚ
  type : TransactionType
deriving DecidableEq, Repr

/-- src/types.ts CreditCard (numeric fields). -/
structure CreditCard where
  cashbackRate : ℚ
  annualFee : ℚ
  interestRate : ℚ
deriving DecidableEq, Repr

/-- src/types.ts Loan (numeric fields). -/
structure Loan where
  principal : ℚ
  remainingBalance : ℚ
  interestRate : ℚ
  monthlyPayment : ℚ
  termMonths : ℤ
deriving DecidableEq, Repr

/-- src/types.ts Investment (numeric fields). -/
structure Investment where
  balance : ℚ
  annualReturnRate : ℚ
  monthlyContribution : ℚ
deriving DecidableEq, Repr

/-- src/types.ts FinancialState. -/
structure FinancialState where
  cashBalance : ℚ
  monthlyIncome : ℚ
  transactions : List Transaction
  creditCards : List CreditCard
  loans : List Loan
  investments : List Investment
deriving DecidableEq, Repr

/-- src/types.ts MonthlyData as produced by generateProjectionData (the
fields the function sets; the optional simulated fields are never set by
it and are omitted). -/
structure MonthlyData where
  month : String
  actualSavings : ℚ
  actualNetWorth : ℚ
  investmentValue : ℚ
deriving DecidableEq, Repr

instance : Inhabited Loan := ⟨⟨0, 0, 0, 0, 0⟩⟩

instance : Inhabited Investment := ⟨⟨0, 0, 0⟩⟩

/-- Sum of amounts of income transactions
(FinancialCharts.tsx lines 17-19, the reduce). -/
def sumIncomeTx (ts : List Transaction) : ℚ :=
  ((ts.filter fun t => t.type = TransactionType.income).foldl
    (fun acc t => acc + t.amount) 0)

/-- Sum of amounts of expense transactions
(FinancialCharts.tsx lines 22-24; identically RiskAnalysis.tsx lines 11-13
and App.tsx lines 123-125). -/
def sumExpenseTx (ts : List Transaction) : ℚ :=
  ((ts.filter fun t => t.type = TransactionType.expense).foldl
    (fun acc t => acc + t.amount) 0)

/-- Monthly income with the `|| state.monthlyIncome` fallback of
FinancialCharts.tsx line 19: in JavaScript the fallback fires exactly when
the transaction sum is falsy, i.e. 0. -/
def monthlyIncomeOf (s : FinancialState) : ℚ :=
  let ti := sumIncomeTx s.transactions
  if ti = 0 then s.monthlyIncome else ti

/-- Monthly expenses of a state (FinancialCharts.tsx lines 22-24). -/
def monthlyExpensesOf (s : FinancialState) : ℚ :=
  sumExpenseTx s.transactions

/-- Highest cashback rate across cards (FinancialCharts.tsx line 27). -/
def maxCashbackRate (cards : List CreditCard) : ℚ :=
  cards.foldl (fun m card => max m card.cashbackRate) 0

/-- Estimated monthly cashback (FinancialCharts.tsx line 28). -/
def estimatedMonthlyCashback (s : FinancialState) : ℚ :=
  monthlyExpensesOf s * (maxCashbackRate s.creditCards / 100)

/-- One loan's slice of the amortization step
(FinancialCharts.tsx lines 54-67): returns the cash after this loan and
the updated loan.  A loan with remainingBalance not exceeding 0 is left
untouched and debits nothing. -/
def stepLoan (cash : ℚ) (loan : Loan) : ℚ × Loan :=
  if 0 < loan.remainingBalance then
    let interest := loan.remainingBalance * (loan.interestRate / 100 / 12)
    let principalPayment := loan.monthlyPayment - interest
    let newBalance := loan.remainingBalance - principalPayment
    (cash - loan.monthlyPayment,
      { loan with remainingBalance := if newBalance < 0 then 0 else newBalance })
  else
    (cash, loan)

/-- The forEach of FinancialCharts.tsx lines 54-67 threaded over the loan
list, in order. -/
def processLoans (cash : ℚ) : List Loan → ℚ × List Loan
  | [] => (cash, [])
  | l :: ls =>
    let p := stepLoan cash l
    let q := processLoans p.1 ls
    (q.1, p.2 :: q.2)

/-- One investment's slice of the contribution-and-growth step
(FinancialCharts.tsx lines 70-80). -/
def stepInv (cash : ℚ) (inv : Investment) : ℚ × Investment :=
  let cash1 := cash - inv.monthlyContribution
  let b1 := inv.balance + inv.monthlyContribution
  let monthlyRate := inv.annualReturnRate / 100 / 12
  (cash1, { inv with balance := b1 + b1 * monthlyRate })

/-- The forEach of FinancialCharts.tsx lines 70-80 threaded over the
investment list, in order. -/
def processInvestments (cash : ℚ) : List Investment → ℚ × List Investment
  | [] => (cash, [])
  | i :: is =>
    let p := stepInv cash i
    let q := processInvestments p.1 is
    (q.1, p.2 :: q.2)

/-- Sum of remaining balances (FinancialCharts.tsx line 32). -/
def totalLoanBalance (ls : List Loan) : ℚ :=
  ls.foldl (fun acc l => acc + l.remainingBalance) 0

/-- Sum of investment balances (FinancialCharts.tsx line 33). -/
def totalInvestmentValue (invs : List Investment) : ℚ :=
  invs.foldl (fun acc inv => acc + inv.balance) 0

/-- The record pushed at the top of each loop iteration
(FinancialCharts.tsx lines 35-40). -/
def monthEntry (i : ℕ) (cash : ℚ) (loans : List Loan)
    (invs : List Investment) : MonthlyData :=
  { month := "M" ++ toString i
    actualSavings := cash
    actualNetWorth := cash + totalInvestmentValue invs - totalLoanBalance loans
    investmentValue := totalInvestmentValue invs }

/-- The loop of FinancialCharts.tsx lines 30-81, with `k` months still to
simulate after the current index `i`: each iteration pushes the snapshot
record first; when `k = 0` (i.e. `i === months`) it stops before applying
any further flow.  Cash flow order follows lines 47-51: income, cashback,
then expenses, then loans, then investments. -/
def projLoop (mIncome cashback mExpenses : ℚ) :
    ℕ → ℕ → ℚ → List Loan → List Investment → List MonthlyData
  | i, 0, cash, loans, invs => [monthEntry i cash loans invs]
  | i, Nat.succ k, cash, loans, invs =>
    monthEntry i cash loans invs ::
      (let cash1 := cash + mIncome + cashback - mExpenses
       let p := processLoans cash1 loans
       let q := processInvestments p.1 invs
       projLoop mIncome cashback mExpenses (i + 1) k q.1 p.2 q.2)

/-- Field-by-field copy of a loan, the `{ ...l }` of
FinancialCharts.tsx line 12. -/
def cloneLoan (l : Loan) : Loan :=
  ⟨l.principal, l.remainingBalance, l.interestRate, l.monthlyPayment,
    l.termMonths⟩

/-- Field-by-field copy of an investment, the `{ ...i }` of
FinancialCharts.tsx line 13. -/
def cloneInvestment (inv : Investment) : Investment :=
  ⟨inv.balance, inv.annualReturnRate, inv.monthlyContribution⟩

/-- generateProjectionData (FinancialCharts.tsx lines 5-84).  The horizon
is an integer: the `for (let i = 0; i <= months; i++)` loop runs zero
times when months is negative, so the function returns the empty list
there — it does not throw. -/
def generateProjectionData (s : FinancialState) (months : ℤ) :
    List MonthlyData :=
  if months < 0 then []
  else
    projLoop (monthlyIncomeOf s) (estimatedMonthlyCashback s)
      (monthlyExpensesOf s) 0 months.toNat s.cashBalance
      (s.loans.map cloneLoan) (s.investments.map cloneInvestment)

/-- Monthly debt payments as computed by RiskAnalysis.tsx line 15: the sum
of monthlyPayment over ALL loans (no remainingBalance filter). -/
def debtPaymentsRisk (s : FinancialState) : ℚ :=
  s.loans.foldl (fun acc l => acc + l.monthlyPayment) 0

/-- Monthly debt payments as computed by App.tsx line 128
(totalMonthlyDebtPayments): the sum over ALL loans. -/
def totalMonthlyDebtPayments (s : FinancialState) : ℚ :=
  s.loans.foldl (fun acc l => acc + l.monthlyPayment) 0

/-- Monthly debt payments as computed inside calculateMockScore,
CreditCoach.tsx line 24: the sum over ALL loans. -/
def debtPaymentsCoach (s : FinancialState) : ℚ :=
  s.loans.foldl (fun acc l => acc + l.monthlyPayment) 0

/-- Modelled from the spec (section 4.2): debtService = sum of
monthlyPayment over loans with remainingBalance > 0 (paid-off loans
contribute 0).  This definition follows the specification's words, for
comparison with the three source-side figures above. -/
def debtServiceSpec (s : FinancialState) : ℚ :=
  ((s.loans.filter fun l => 0 < l.remainingBalance).foldl
    (fun acc l => acc + l.monthlyPayment) 0)

/-- totalBurn of RiskAnalysis.tsx line 16. -/
def totalBurn (s : FinancialState) : ℚ :=
  monthlyExpensesOf s + debtPaymentsRisk s

/-- emergencyRatio of RiskAnalysis.tsx line 19: months of coverage, with
the `totalBurn > 0 ? ... : 0` guard. -/
def emergencyRatio (s : FinancialState) : ℚ :=
  if 0 < totalBurn s then s.cashBalance / totalBurn s else 0

/-- The record returned by getEmergencyStatus (RiskAnalysis.tsx
lines 25-30). -/
structure StatusInfo where
  color : String
  bg : String
  label : String
  width : String
deriving DecidableEq, Repr

/-- getEmergencyStatus (RiskAnalysis.tsx lines 25-30). -/
def getEmergencyStatus (ratio : ℚ) : StatusInfo :=
  if 6 ≤ ratio then
    ⟨"text-emerald-600", "bg-emerald-500", "Excellent", "100%"⟩
  else if 3 ≤ ratio then
    ⟨"text-emerald-600", "bg-emerald-500", "Good", "75%"⟩
  else if 1 ≤ ratio then
    ⟨"text-amber-600", "bg-amber-500", "At Risk", "30%"⟩
  else
    ⟨"text-rose-600", "bg-rose-500", "Critical", "10%"⟩

/-- The monthly payment computed inside addLoan
(SimulationControl.tsx lines 30-32): the annuity formula with the term
fixed at n = 60 months and no zero-rate branch.  At rate 0 the
denominator (1+r)^60 - 1 is 0: JavaScript produces NaN there; the
rational embedding yields 0 (division by zero is 0 in ℚ).  Either way
the result is not principal / n. -/
def addLoanMonthlyPayment (amount rate : ℚ) : ℚ :=
  let r := rate / 100 / 12
  (amount * r * (1 + r) ^ (60 : ℕ)) / ((1 + r) ^ (60 : ℕ) - 1)

/-- addLoan (SimulationControl.tsx lines 28-50): builds the simulated
loan (principal = remainingBalance = entered amount, termMonths = 60)
and returns the updated simulated state, with the borrowed cash credited
immediately.  No input validation is performed anywhere in the function. -/
def addLoan (s : FinancialState) (amount rate : ℚ) : FinancialState :=
  let loan : Loan :=
    { principal := amount
      remainingBalance := amount
      interestRate := rate
      monthlyPayment := addLoanMonthlyPayment amount rate
      termMonths := 60 }
  { s with
    loans := s.loans ++ [loan]
    cashBalance := s.cashBalance + amount }

/-- Modelled from the spec (section 4.1): the error taxonomy of the
amortization calculator.  No such error exists anywhere in the source;
this type follows the specification's words, for comparison with the
source-side addLoan above. -/
inductive CalcError
  | invalidLoanParameters
  | invalidProjectionHorizon
deriving DecidableEq, Repr

/-- Modelled from the spec (sections 4.1 and 7):
computeMonthlyPayment(principal > 0, annualRatePercent ≥ 0,
termMonths > 0), failing with InvalidLoanParameters on invalid inputs and
taking the explicit r = 0 branch (payment = principal / n).  This
definition follows the specification's words, for comparison with the
source-side addLoanMonthlyPayment. -/
def computeMonthlyPaymentSpec (principal rate : ℚ) (termMonths : ℤ) :
    Except CalcError ℚ :=
  if principal ≤ 0 ∨ termMonths ≤ 0 ∨ rate < 0 then
    Except.error CalcError.invalidLoanParameters
  else if rate = 0 then
    Except.ok (principal / (termMonths : ℚ))
  else
    let r := rate / 100 / 12
    let n := termMonths.toNat
    Except.ok ((principal * r * (1 + r) ^ n) / ((1 + r) ^ n - 1))

/-! ### Store-based embedding of generateProjectionData

JavaScript arrays hold references to heap objects; `state.loans.map(l =>
({ ...l }))` allocates fresh objects, and the loop's writes hit whatever
objects the active array references.  To state the frame contract
(the caller's snapshot is untouched) the embedding below makes the heap
explicit: a Store of objects addressed by index, states holding reference
lists, reads as lookups, writes as store updates, clones as allocations
at the end of the store. -/

/-- An explicit object store: heap objects addressed by index. -/
structure Store where
  loanObjs : List Loan
  invObjs : List Investment
deriving DecidableEq, Repr

/-- A FinancialState whose loans and investments arrays hold references
into a Store (the transactions and creditCards are only ever read by the
engine, so they are kept as values). -/
structure FinancialStateRef where
  cashBalance : ℚ
  monthlyIncome : ℚ
  transactions : List Transaction
  creditCards : List CreditCard
  loanRefs : List ℕ
  invRefs : List ℕ
deriving DecidableEq, Repr

/-- Dereference a loan object. -/
def readLoan (objs : List Loan) (r : ℕ) : Loan :=
  objs.getD r default

/-- Dereference an investment object. -/
def readInv (objs : List Investment) (r : ℕ) : Investment :=
  objs.getD r default

/-- The value of a FinancialStateRef as the caller sees it: every
reference followed to its current object. -/
def derefState (store : Store) (s : FinancialStateRef) : FinancialState :=
  { cashBalance := s.cashBalance
    monthlyIncome := s.monthlyIncome
    transactions := s.transactions
    creditCards := s.creditCards
    loans := s.loanRefs.map (readLoan store.loanObjs)
    investments := s.invRefs.map (readInv store.invObjs) }

/-- stepLoan acting through a reference (FinancialCharts.tsx lines 54-67
under JavaScript object semantics): read the object, write the updated
object back at the same address. -/
def stepLoanMut (objs : List Loan) (cash : ℚ) (r : ℕ) : List Loan × ℚ :=
  let loan := readLoan objs r
  if 0 < loan.remainingBalance then
    let interest := loan.remainingBalance * (loan.interestRate / 100 / 12)
    let principalPayment := loan.monthlyPayment - interest
    let newBalance := loan.remainingBalance - principalPayment
    (objs.set r
      { loan with remainingBalance := if newBalance < 0 then 0 else newBalance },
      cash - loan.monthlyPayment)
  else
    (objs, cash)

/-- The loan forEach over a reference list. -/
def processLoansMut (objs : List Loan) (cash : ℚ) : List ℕ → List Loan × ℚ
  | [] => (objs, cash)
  | r :: rs =>
    let p := stepLoanMut objs cash r
    processLoansMut p.1 p.2 rs

/-- stepInv acting through a reference (FinancialCharts.tsx
lines 70-80 under JavaScript object semantics). -/
def stepInvMut (objs : List Investment) (cash : ℚ) (r : ℕ) :
    List Investment × ℚ :=
  let inv := readInv objs r
  let cash1 := cash - inv.monthlyContribution
  let b1 := inv.balance + inv.monthlyContribution
  let monthlyRate := inv.annualReturnRate / 100 / 12
  (objs.set r { inv with balance := b1 + b1 * monthlyRate }, cash1)

/-- The investment forEach over a reference list. -/
def processInvestmentsMut (objs : List Investment) (cash : ℚ) :
    List ℕ → List Investment × ℚ
  | [] => (objs, cash)
  | r :: rs =>
    let p := stepInvMut objs cash r
    processInvestmentsMut p.1 p.2 rs

/-- The record pushed each iteration, reading the active objects through
their references (FinancialCharts.tsx lines 32-40). -/
def monthEntryMut (i : ℕ) (cash : ℚ) (store : Store)
    (loanRefs invRefs : List ℕ) : MonthlyData :=
  monthEntry i cash (loanRefs.map (readLoan store.loanObjs))
    (invRefs.map (readInv store.invObjs))

/-- The projection loop under store semantics: the active reference lists
are fixed; each month's writes update the store. -/
def projLoopMut (mIncome cashback mExpenses : ℚ)
    (loanRefs invRefs : List ℕ) :
    ℕ → ℕ → ℚ → Store → List MonthlyData × Store
  | i, 0, cash, store =>
    ([monthEntryMut i cash store loanRefs invRefs], store)
  | i, Nat.succ k, cash, store =>
    let entry := monthEntryMut i cash store loanRefs invRefs
    let cash1 := cash + mIncome + cashback - mExpenses
    let p := processLoansMut store.loanObjs cash1 loanRefs
    let q := processInvestmentsMut store.invObjs p.2 invRefs
    let rest := projLoopMut mIncome cashback mExpenses loanRefs invRefs
      (i + 1) k q.2 ⟨p.1, q.1⟩
    (entry :: rest.1, rest.2)

/-- generateProjectionData under store semantics: lines 12-13 allocate
fresh copies of the referenced objects at the end of the store, and the
loop works exclusively through references to those fresh objects. -/
def generateProjectionDataMut (store : Store) (s : FinancialStateRef)
    (months : ℤ) : List MonthlyData × Store :=
  if months < 0 then ([], store)
  else
    let clonesL := s.loanRefs.map fun r => cloneLoan (readLoan store.loanObjs r)
    let clonesI := s.invRefs.map fun r => cloneInvestment (readInv store.invObjs r)
    let store1 : Store := ⟨store.loanObjs ++ clonesL, store.invObjs ++ clonesI⟩
    let activeLoanRefs := List.range' store.loanObjs.length s.loanRefs.length
    let activeInvRefs := List.range' store.invObjs.length s.invRefs.length
    projLoopMut (monthlyIncomeOf (derefState store s))
      (estimatedMonthlyCashback (derefState store s))
      (monthlyExpensesOf (derefState store s))
      activeLoanRefs activeInvRefs 0 months.toNat s.cashBalance store1

/-- The cash / loans / investments component of the pure loop after `k`
months of flow (the state the pure loop carries; used to describe the
final store of the mutating loop). -/
def projLoopFinal (mIncome cashback mExpenses : ℚ) :
    ℕ → ℚ → List Loan → List Investment → ℚ × List Loan × List Investment
  | 0, cash, loans, invs => (cash, loans, invs)
  | Nat.succ k, cash, loans, invs =>
    let cash1 := cash + mIncome + cashback - mExpenses
    let p := processLoans cash1 loans
    let q := processInvestments p.1 invs
    projLoopFinal mIncome cashback mExpenses k q.1 p.2 q.2

/-! ### Helper lemmas -/

theorem cloneLoan_eq (l : Loan) : cloneLoan l = l := rfl

theorem cloneInvestment_eq (inv : Investment) : cloneInvestment inv = inv := rfl

theorem map_cloneLoan (ls : List Loan) : ls.map cloneLoan = ls := by
  induction ls with
  | nil => rfl
  | cons a l ih => simp [cloneLoan_eq, ih]

theorem map_cloneInvestment (invs : List Investment) :
    invs.map cloneInvestment = invs := by
  induction invs with
  | nil => rfl
  | cons a l ih => simp [cloneInvestment_eq, ih]

theorem getD_append_length {α : Type _} (pre : List α) (c : α) (rest : List α)
    (d : α) : (pre ++ c :: rest).getD pre.length d = c := by
  induction pre with
  | nil => rfl
  | cons a pre ih => simpa [List.getD] using ih

theorem set_append_length {α : Type _} (pre : List α) (c : α) (rest : List α)
    (x : α) : (pre ++ c :: rest).set pre.length x = pre ++ x :: rest := by
  rw [List.set_append]
  simp

theorem projLoop_length (mI cb mE : ℚ) (k : ℕ) :
    ∀ (i : ℕ) (cash : ℚ) (ls : List Loan) (invs : List Investment),
      (projLoop mI cb mE i k cash ls invs).length = k + 1 := by
  induction k with
  | zero => intro i cash ls invs; rfl
  | succ k ih => intro i cash ls invs; simp [projLoop, ih]

theorem projLoop_cons (mI cb mE : ℚ) (i k : ℕ) (cash : ℚ) (ls : List Loan)
    (invs : List Investment) :
    ∃ t, projLoop mI cb mE i k cash ls invs = monthEntry i cash ls invs :: t := by
  cases k with
  | zero => exact ⟨[], rfl⟩
  | succ k => exact ⟨_, rfl⟩

theorem projLoop_months (mI cb mE : ℚ) (k : ℕ) :
    ∀ (i : ℕ) (cash : ℚ) (ls : List Loan) (invs : List Investment),
      (projLoop mI cb mE i k cash ls invs).map (fun e => e.month) =
        (List.range' i (k + 1)).map (fun j => "M" ++ toString j) := by
  induction k with
  | zero =>
    intro i cash ls invs
    simp [projLoop, monthEntry, List.range']
  | succ k ih =>
    intro i cash ls invs
    rw [show k + 1 + 1 = (k + 1) + 1 from rfl, List.range'_succ]
    simp only [projLoop, List.map_cons, monthEntry]
    rw [ih]

/-! ### The claims -/

/-- C1.  For every FinancialState and every horizon months ≥ 0,
generateProjectionData returns exactly months+1 entries; the first entry
records the cash balance, the net worth (cash + total investment value −
total loan balance) and the total investment value of the initial
snapshot, before any monthly flow; the entries are ordered, labelled
M0 … M(months) in sequence; and for months = 0 the output is exactly
that single initial-snapshot entry. -/
theorem projection_length_and_initial_snapshot (s : FinancialState)
    (months : ℤ) (h : 0 ≤ months) :
    (generateProjectionData s months).length = months.toNat + 1 ∧
    (generateProjectionData s months).map (fun e => e.month) =
      (List.range' 0 (months.toNat + 1)).map (fun j => "M" ++ toString j) ∧
    (generateProjectionData s months).head? =
      some (monthEntry 0 s.cashBalance s.loans s.investments) ∧
    (monthEntry 0 s.cashBalance s.loans s.investments).actualSavings =
      s.cashBalance ∧
    (monthEntry 0 s.cashBalance s.loans s.investments).actualNetWorth =
      s.cashBalance + totalInvestmentValue s.investments -
        totalLoanBalance s.loans ∧
    (monthEntry 0 s.cashBalance s.loans s.investments).investmentValue =
      totalInvestmentValue s.investments ∧
    (months = 0 →
      generateProjectionData s months =
        [monthEntry 0 s.cashBalance s.loans s.investments]) := by
  have hnn : ¬ months < 0 := not_lt.mpr h
  refine ⟨?_, ?_, ?_, rfl, rfl, rfl, ?_⟩
  · simp [generateProjectionData, hnn, projLoop_length]
  · simp [generateProjectionData, hnn, projLoop_months]
  · obtain ⟨t, ht⟩ := projLoop_cons (monthlyIncomeOf s)
      (estimatedMonthlyCashback s) (monthlyExpensesOf s) 0 months.toNat
      s.cashBalance (s.loans.map cloneLoan) (s.investments.map cloneInvestment)
    rw [map_cloneLoan, map_cloneInvestment] at ht
    simp [generateProjectionData, hnn, ht, map_cloneLoan, map_cloneInvestment]
  · intro h0
    subst h0
    simp [generateProjectionData, projLoop, map_cloneLoan, map_cloneInvestment]

/-- Witness for C1 at a concrete state and horizon 2. -/
theorem projection_length_and_initial_snapshot_witness :
    (0 : ℤ) ≤ 2 ∧
    (generateProjectionData
      { cashBalance := 15400, monthlyIncome := 6200, transactions := [],
        creditCards := [], loans := [⟨18400, 18400, 45/10, 260, 120⟩],
        investments := [⟨12500, 65/10, 200⟩] } 2).length = (2 : ℤ).toNat + 1 :=
  ⟨by decide,
    (projection_length_and_initial_snapshot
      { cashBalance := 15400, monthlyIncome := 6200, transactions := [],
        creditCards := [], loans := [⟨18400, 18400, 45/10, 260, 120⟩],
        investments := [⟨12500, 65/10, 200⟩] } 2 (by decide)).1⟩

/-- C3, counterexample.  A loan with monthlyPayment 0, positive rate and
remainingBalance = principal satisfies every hypothesis of the claim
(0 ≤ remainingBalance ≤ principal, rate ≥ 0), yet after one amortization
step its remainingBalance (1010) exceeds its principal (1000): when the
payment does not cover the accrued interest the balance grows past the
principal, so the claimed invariant fails. -/
theorem loan_invariant_counterexample :
    (0 : ℚ) ≤ (⟨1000, 1000, 12, 0, 60⟩ : Loan).remainingBalance ∧
    (⟨1000, 1000, 12, 0, 60⟩ : Loan).remainingBalance ≤
      (⟨1000, 1000, 12, 0, 60⟩ : Loan).principal ∧
    (0 : ℚ) ≤ (⟨1000, 1000, 12, 0, 60⟩ : Loan).interestRate ∧
    (stepLoan 0 ⟨1000, 1000, 12, 0, 60⟩).2.remainingBalance = 1010 ∧
    (⟨1000, 1000, 12, 0, 60⟩ : Loan).principal <
      (stepLoan 0 ⟨1000, 1000, 12, 0, 60⟩).2.remainingBalance := by
  refine ⟨by norm_num, by norm_num, by norm_num, ?_, ?_⟩ <;>
    norm_num [stepLoan]

/-- C3 (amended).  In every simulated month, for every loan with
0 ≤ remainingBalance ≤ principal, rate ≥ 0 and — the amendment the
counterexample forces — monthlyPayment at least the accrued monthly
interest: the step computes interest on the pre-update remainingBalance,
debits the full monthlyPayment from cash, sets the new remainingBalance
to max(0, remainingBalance − (monthlyPayment − interest)), and
0 ≤ remainingBalance ≤ principal still holds afterwards; a loan whose
remainingBalance is 0 is skipped entirely (balance stays 0, no cash
debit). -/
theorem loan_step_amortization (cash : ℚ) (loan : Loan)
    (h0 : 0 ≤ loan.remainingBalance)
    (h1 : loan.remainingBalance ≤ loan.principal)
    (hr : 0 ≤ loan.interestRate)
    (hpay : loan.remainingBalance * (loan.interestRate / 100 / 12) ≤
      loan.monthlyPayment) :
    (0 < loan.remainingBalance →
      (stepLoan cash loan).1 = cash - loan.monthlyPayment ∧
      (stepLoan cash loan).2.remainingBalance =
        max 0 (loan.remainingBalance -
          (loan.monthlyPayment -
            loan.remainingBalance * (loan.interestRate / 100 / 12)))) ∧
    0 ≤ (stepLoan cash loan).2.remainingBalance ∧
    (stepLoan cash loan).2.remainingBalance ≤ loan.principal ∧
    (loan.remainingBalance = 0 → stepLoan cash loan = (cash, loan)) := by
  by_cases hrb : 0 < loan.remainingBalance
  · have hmax : ∀ x : ℚ, (if x < 0 then (0 : ℚ) else x) = max 0 x := by
      intro x
      rcases lt_or_le x 0 with hx | hx
      · simp [hx, max_eq_left hx.le]
      · simp [not_lt.mpr hx, max_eq_right hx]
    constructor
    · intro _
      constructor
      · simp [stepLoan, hrb]
      · simp only [stepLoan, hrb, if_pos]
        exact hmax _
    refine ⟨?_, ?_, ?_⟩
    · simp only [stepLoan, hrb, if_pos]
      split
      · exact le_refl 0
      · linarith [not_lt.mp (by assumption : ¬ loan.remainingBalance -
          (loan.monthlyPayment -
            loan.remainingBalance * (loan.interestRate / 100 / 12)) < 0)]
    · simp only [stepLoan, hrb, if_pos]
      split
      · linarith
      · linarith
    · intro hz; exact absurd hz (ne_of_gt hrb)
  · have hz : loan.remainingBalance = 0 := le_antisymm (not_lt.mp hrb) h0
    refine ⟨fun hc => absurd hc hrb, ?_, ?_, fun _ => ?_⟩ <;>
      simp [stepLoan, hrb, h0, h1]

/-- Witness for C3's amended theorem at a concrete loan
(principal 25000, balance 18400, rate 4.5, payment 260). -/
theorem loan_step_amortization_witness :
    (0 : ℚ) ≤ (18400 : ℚ) ∧ (18400 : ℚ) ≤ 25000 ∧ (0 : ℚ) ≤ 45/10 ∧
    (18400 : ℚ) * ((45/10) / 100 / 12) ≤ 260 ∧
    0 ≤ (stepLoan 0 ⟨25000, 18400, 45/10, 260, 120⟩).2.remainingBalance ∧
    (stepLoan 0 ⟨25000, 18400, 45/10, 260, 120⟩).2.remainingBalance ≤
      (⟨25000, 18400, 45/10, 260, 120⟩ : Loan).principal :=
  ⟨by norm_num, by norm_num, by norm_num, by norm_num,
    (loan_step_amortization 0 ⟨25000, 18400, 45/10, 260, 120⟩
      (by norm_num) (by norm_num) (by norm_num) (by norm_num)).2.1,
    (loan_step_amortization 0 ⟨25000, 18400, 45/10, 260, 120⟩
      (by norm_num) (by norm_num) (by norm_num) (by norm_num)).2.2.1⟩

/-- Sum of monthly contributions of a list of investments. -/
def sumContributions (invs : List Investment) : ℚ :=
  invs.foldl (fun acc inv => acc + inv.monthlyContribution) 0

theorem foldl_add_init {α : Type _} (f : α → ℚ) (l : List α) :
    ∀ c : ℚ, l.foldl (fun acc x => acc + f x) c =
      c + l.foldl (fun acc x => acc + f x) 0 := by
  induction l with
  | nil => intro c; simp
  | cons a l ih =>
    intro c
    simp only [List.foldl_cons]
    rw [ih (c + f a), ih (0 + f a)]
    ring

/-- C4.  In every simulated month, for every investment the step debits
exactly monthlyContribution from cash and sets the new balance to
(old balance + monthlyContribution) × (1 + annualReturnRate/100/12):
growth applies to the post-contribution balance.  Lifted over the whole
investment list: total cash debited is the sum of contributions and each
investment is updated by exactly that step. -/
theorem investment_contribution_then_growth (cash : ℚ) (inv : Investment)
    (invs : List Investment) :
    (stepInv cash inv).1 = cash - inv.monthlyContribution ∧
    (stepInv cash inv).2.balance =
      (inv.balance + inv.monthlyContribution) *
        (1 + inv.annualReturnRate / 100 / 12) ∧
    (stepInv cash inv).2.annualReturnRate = inv.annualReturnRate ∧
    (stepInv cash inv).2.monthlyContribution = inv.monthlyContribution ∧
    (processInvestments cash invs).1 = cash - sumContributions invs ∧
    (processInvestments cash invs).2 =
      invs.map (fun j => (stepInv 0 j).2) := by
  refine ⟨rfl, by simp [stepInv]; ring, rfl, rfl, ?_, ?_⟩
  · induction invs generalizing cash with
    | nil => simp [processInvestments, sumContributions]
    | cons a l ih =>
      simp only [processInvestments, sumContributions, List.foldl_cons]
      rw [ih]
      rw [foldl_add_init (fun inv => inv.monthlyContribution) l (0 + a.monthlyContribution)]
      simp [stepInv, sumContributions]
      ring
  · induction invs generalizing cash with
    | nil => rfl
    | cons a l ih => simp [processInvestments, ih, stepInv]

/-- C5, counterexample.  A state holding a single paid-off loan
(remainingBalance 0, monthlyPayment 100): all three source-side debt
figures (RiskAnalysis, App dashboard, CreditCoach) count its payment,
where the claim (and the spec) say paid-off loans contribute 0. -/
theorem debt_service_counterexample :
    debtPaymentsRisk ⟨0, 0, [], [], [⟨1000, 0, 5, 100, 60⟩], []⟩ = 100 ∧
    totalMonthlyDebtPayments ⟨0, 0, [], [], [⟨1000, 0, 5, 100, 60⟩], []⟩ = 100 ∧
    debtPaymentsCoach ⟨0, 0, [], [], [⟨1000, 0, 5, 100, 60⟩], []⟩ = 100 ∧
    debtServiceSpec ⟨0, 0, [], [], [⟨1000, 0, 5, 100, 60⟩], []⟩ = 0 ∧
    debtPaymentsRisk ⟨0, 0, [], [], [⟨1000, 0, 5, 100, 60⟩], []⟩ ≠
      debtServiceSpec ⟨0, 0, [], [], [⟨1000, 0, 5, 100, 60⟩], []⟩ := by
  refine ⟨?_, ?_, ?_, ?_, ?_⟩ <;>
    norm_num [debtPaymentsRisk, totalMonthlyDebtPayments, debtPaymentsCoach,
      debtServiceSpec, List.filter]

/-- C5 (amended).  The monthly debt service figure used by the flow
aggregation and the classifiers is the sum of monthlyPayment over ALL
loans, including those whose remainingBalance is 0: all three source
sites agree with each other, and appending a paid-off loan still raises
the figure by that loan's monthlyPayment. -/
theorem debt_service_sums_all_loans (s : FinancialState) (l : Loan)
    (h : l.remainingBalance = 0) :
    debtPaymentsRisk s = totalMonthlyDebtPayments s ∧
    totalMonthlyDebtPayments s = debtPaymentsCoach s ∧
    debtPaymentsRisk { s with loans := s.loans ++ [l] } =
      debtPaymentsRisk s + l.monthlyPayment := by
  refine ⟨rfl, rfl, ?_⟩
  simp [debtPaymentsRisk, List.foldl_append]

/-- Witness for C5's amended theorem at a concrete state and loan. -/
theorem debt_service_sums_all_loans_witness :
    (⟨1000, 0, 5, 100, 60⟩ : Loan).remainingBalance = 0 ∧
    debtPaymentsRisk
        { (⟨0, 0, [], [], [], []⟩ : FinancialState) with
          loans := ([] : List Loan) ++ [⟨1000, 0, 5, 100, 60⟩] } =
      debtPaymentsRisk (⟨0, 0, [], [], [], []⟩ : FinancialState) + 100 :=
  ⟨rfl,
    (debt_service_sums_all_loans ⟨0, 0, [], [], [], []⟩
      ⟨1000, 0, 5, 100, 60⟩ rfl).2.2⟩

/-- C6 (code bug).  The source computes the simulated loan's monthly
payment by evaluating the annuity formula unconditionally
(SimulationControl.tsx lines 30-32), with no explicit zero-rate branch.
At annualRatePercent = 0 the denominator (1+r)^60 − 1 is 0: JavaScript
returns NaN (the rational embedding returns 0) — not principal/termMonths
and in particular not the 1000 the spec promises for
computeMonthlyPayment(12000, 0, 12) (the code's term is moreover fixed at
60 months).  The spec-modelled calculator does return 1000 there. -/
theorem zero_rate_payment_division_by_zero :
    addLoanMonthlyPayment 12000 0 = 0 ∧
    (12000 : ℚ) / 12 = 1000 ∧
    (12000 : ℚ) / 60 = 200 ∧
    addLoanMonthlyPayment 12000 0 ≠ 1000 ∧
    addLoanMonthlyPayment 12000 0 ≠ 200 ∧
    computeMonthlyPaymentSpec 12000 0 12 = Except.ok 1000 := by
  have h : addLoanMonthlyPayment 12000 0 = 0 := by
    norm_num [addLoanMonthlyPayment]
  refine ⟨h, by norm_num, by norm_num, ?_, ?_, ?_⟩
  · rw [h]; norm_num
  · rw [h]; norm_num
  · norm_num [computeMonthlyPaymentSpec]

/-- C7, counterexample.  addLoan with a negative principal (−100): no
failure occurs — the loan is constructed and appended with
principal = remainingBalance = −100 and a numeric payment — whereas the
spec-modelled calculator rejects the same input with
InvalidLoanParameters. -/
theorem no_validation_counterexample :
    (addLoan ⟨0, 0, [], [], [], []⟩ (-100) 0).loans =
      [⟨-100, -100, 0, addLoanMonthlyPayment (-100) 0, 60⟩] ∧
    (addLoan ⟨0, 0, [], [], [], []⟩ (-100) 0).loans.length = 1 ∧
    computeMonthlyPaymentSpec (-100) 0 60 =
      Except.error CalcError.invalidLoanParameters := by
  refine ⟨rfl, rfl, ?_⟩
  norm_num [computeMonthlyPaymentSpec]

/-- C7 (amended).  The monthly-payment computation performs no input
validation: for every amount ≤ 0 or rate < 0 (as for all other inputs)
addLoan does not fail — it evaluates the annuity formula, constructs the
loan and appends it; no InvalidLoanParameters error exists in the
source. -/
theorem addLoan_no_validation (s : FinancialState) (amount rate : ℚ)
    (h : amount ≤ 0 ∨ rate < 0) :
    (addLoan s amount rate).loans =
      s.loans ++ [⟨amount, amount, rate, addLoanMonthlyPayment amount rate, 60⟩] ∧
    (addLoan s amount rate).loans.length = s.loans.length + 1 := by
  refine ⟨rfl, ?_⟩
  simp [addLoan]

/-- Witness for C7's amended theorem at amount −100, rate 0. -/
theorem addLoan_no_validation_witness :
    ((-100 : ℚ) ≤ 0 ∨ (0 : ℚ) < 0) ∧
    (addLoan ⟨0, 0, [], [], [], []⟩ (-100) 0).loans.length =
      ([] : List Loan).length + 1 :=
  ⟨Or.inl (by norm_num),
    (addLoan_no_validation ⟨0, 0, [], [], [], []⟩ (-100) 0
      (Or.inl (by norm_num))).2⟩

/-- C8, counterexample.  At horizon −1 the projection's for-loop body
never runs: generateProjectionData returns the empty sequence — it does
not fail, and no InvalidProjectionHorizon error exists in the source. -/
theorem negative_horizon_counterexample :
    generateProjectionData ⟨0, 0, [], [], [], []⟩ (-1) = [] ∧
    (generateProjectionData ⟨0, 0, [], [], [], []⟩ (-1)).length = 0 := by
  constructor <;> rfl

/-- C8 (amended).  For every negative horizon, generateProjectionData
returns the empty sequence (zero entries) and does not fail; for
h ≥ 0 it produces the full h+1-entry sequence (see C1's theorem). -/
theorem negative_horizon_returns_empty (s : FinancialState) (months : ℤ)
    (h : months < 0) : generateProjectionData s months = [] := by
  simp [generateProjectionData, h]

/-- Witness for C8's amended theorem at horizon −1. -/
theorem negative_horizon_returns_empty_witness :
    (-1 : ℤ) < 0 ∧ generateProjectionData ⟨0, 0, [], [], [], []⟩ (-1) = [] :=
  ⟨by decide, negative_horizon_returns_empty ⟨0, 0, [], [], [], []⟩ (-1) (by decide)⟩

/-- C9.  The emergency-fund classifier computes
ratio = cashBalance / totalMonthlyBurn with ratio = 0 when the burn is 0,
and maps [6,∞) to "Excellent", [3,6) to "Good", [1,3) to "At Risk" and
[0,1) to "Critical"; in particular ratio 3.0 maps to "Good" and 2.999 to
"At Risk". -/
theorem emergency_fund_classifier (s : FinancialState) (r : ℚ) :
    emergencyRatio s =
      (if 0 < totalBurn s then s.cashBalance / totalBurn s else 0) ∧
    (totalBurn s = 0 → emergencyRatio s = 0) ∧
    (6 ≤ r → (getEmergencyStatus r).label = "Excellent") ∧
    (3 ≤ r → r < 6 → (getEmergencyStatus r).label = "Good") ∧
    (1 ≤ r → r < 3 → (getEmergencyStatus r).label = "At Risk") ∧
    (0 ≤ r → r < 1 → (getEmergencyStatus r).label = "Critical") ∧
    (getEmergencyStatus 3).label = "Good" ∧
    (getEmergencyStatus (2999/1000)).label = "At Risk" := by
  refine ⟨rfl, ?_, ?_, ?_, ?_, ?_, ?_, ?_⟩
  · intro hb; simp [emergencyRatio, hb]
  · intro h6; simp [getEmergencyStatus, h6]
  · intro h3 h6
    simp [getEmergencyStatus, h3, not_le.mpr h6]
  · intro h1 h3
    have h6n : ¬ (6 : ℚ) ≤ r := not_le.mpr (by linarith)
    have h3n : ¬ (3 : ℚ) ≤ r := not_le.mpr h3
    simp [getEmergencyStatus, h1, h3n, h6n]
  · intro h0 h1
    have h6n : ¬ (6 : ℚ) ≤ r := not_le.mpr (by linarith)
    have h3n : ¬ (3 : ℚ) ≤ r := not_le.mpr (by linarith)
    have h1n : ¬ (1 : ℚ) ≤ r := not_le.mpr h1
    simp [getEmergencyStatus, h1n, h3n, h6n]
  · norm_num [getEmergencyStatus]
  · norm_num [getEmergencyStatus]

/-- Witness for C9 at a concrete state (burn 0) and ratio 3. -/
theorem emergency_fund_classifier_witness :
    ((3 : ℚ) ≤ 3 ∧ (3 : ℚ) < 6) ∧
    (getEmergencyStatus 3).label = "Good" :=
  ⟨⟨le_refl 3, by norm_num⟩,
    (emergency_fund_classifier ⟨0, 0, [], [], [], []⟩ 3).2.2.2.1
      (le_refl 3) (by norm_num)⟩

/-- C10.  addLoan appends exactly one loan, with
principal = remainingBalance = the entered amount and termMonths = 60,
credits the borrowed cash to cashBalance immediately, and leaves
transactions, creditCards, investments (and monthlyIncome) unchanged. -/
theorem addLoan_appends_and_credits_cash (s : FinancialState)
    (amount rate : ℚ) :
    (addLoan s amount rate).loans =
      s.loans ++ [⟨amount, amount, rate, addLoanMonthlyPayment amount rate, 60⟩] ∧
    (addLoan s amount rate).loans.length = s.loans.length + 1 ∧
    (addLoan s amount rate).cashBalance = s.cashBalance + amount ∧
    (addLoan s amount rate).transactions = s.transactions ∧
    (addLoan s amount rate).creditCards = s.creditCards ∧
    (addLoan s amount rate).investments = s.investments ∧
    (addLoan s amount rate).monthlyIncome = s.monthlyIncome := by
  refine ⟨rfl, ?_, rfl, rfl, rfl, rfl, rfl⟩
  simp [addLoan]

/-! ### Relating the store embedding to the pure embedding -/

theorem processLoans_length (cash : ℚ) (ls : List Loan) :
    (processLoans cash ls).2.length = ls.length := by
  induction ls generalizing cash with
  | nil => rfl
  | cons a l ih => simp [processLoans, ih]

theorem processInvestments_length (cash : ℚ) (invs : List Investment) :
    (processInvestments cash invs).2.length = invs.length := by
  induction invs generalizing cash with
  | nil => rfl
  | cons a l ih => simp [processInvestments, ih]

theorem map_getD_range' {α : Type _} (d : α) :
    ∀ (cur pre : List α),
      (List.range' pre.length cur.length).map
        (fun r => (pre ++ cur).getD r d) = cur := by
  intro cur
  induction cur with
  | nil => intro pre; simp
  | cons c cs ih =>
    intro pre
    rw [List.length_cons, List.range'_succ, List.map_cons,
      getD_append_length pre c cs d]
    congr 1
    have h2 : pre ++ c :: cs = (pre ++ [c]) ++ cs := by simp
    have h3 : pre.length + 1 = (pre ++ [c]).length := by simp
    rw [h2, h3]
    exact ih (pre ++ [c])

theorem processLoansMut_spec :
    ∀ (cur pre : List Loan) (cash : ℚ),
      processLoansMut (pre ++ cur) cash
          (List.range' pre.length cur.length) =
        (pre ++ (processLoans cash cur).2, (processLoans cash cur).1) := by
  intro cur
  induction cur with
  | nil => intro pre cash; simp [processLoansMut, processLoans]
  | cons c cs ih =>
    intro pre cash
    rw [List.length_cons, List.range'_succ]
    by_cases hc : 0 < c.remainingBalance
    · simp only [processLoansMut, stepLoanMut, readLoan,
        getD_append_length pre c cs, hc, if_pos, set_append_length,
        processLoans, stepLoan]
      rw [show pre ++
            { c with
              remainingBalance :=
                if c.remainingBalance -
                    (c.monthlyPayment -
                      c.remainingBalance * (c.interestRate / 100 / 12)) < 0
                then 0
                else c.remainingBalance -
                  (c.monthlyPayment -
                    c.remainingBalance * (c.interestRate / 100 / 12)) } :: cs =
          (pre ++
            [{ c with
              remainingBalance :=
                if c.remainingBalance -
                    (c.monthlyPayment -
                      c.remainingBalance * (c.interestRate / 100 / 12)) < 0
                then 0
                else c.remainingBalance -
                  (c.monthlyPayment -
                    c.remainingBalance * (c.interestRate / 100 / 12)) }]) ++ cs
        by simp,
        show pre.length + 1 =
          (pre ++
            [{ c with
              remainingBalance :=
                if c.remainingBalance -
                    (c.monthlyPayment -
                      c.remainingBalance * (c.interestRate / 100 / 12)) < 0
                then 0
                else c.remainingBalance -
                  (c.monthlyPayment -
                    c.remainingBalance * (c.interestRate / 100 / 12)) }]).length
        by simp]
      rw [ih]
      simp
    · simp only [processLoansMut, stepLoanMut, readLoan,
        getD_append_length pre c cs, hc, if_neg, if_false,
        processLoans, stepLoan]
      rw [show pre ++ c :: cs = (pre ++ [c]) ++ cs by simp,
        show pre.length + 1 = (pre ++ [c]).length by simp]
      rw [ih]
      simp

theorem processInvestmentsMut_spec :
    ∀ (cur pre : List Investment) (cash : ℚ),
      processInvestmentsMut (pre ++ cur) cash
          (List.range' pre.length cur.length) =
        (pre ++ (processInvestments cash cur).2,
          (processInvestments cash cur).1) := by
  intro cur
  induction cur with
  | nil => intro pre cash; simp [processInvestmentsMut, processInvestments]
  | cons c cs ih =>
    intro pre cash
    rw [List.length_cons, List.range'_succ]
    simp only [processInvestmentsMut, stepInvMut, readInv,
      getD_append_length pre c cs, set_append_length,
      processInvestments, stepInv]
    rw [show pre ++
          { c with
            balance := c.balance + c.monthlyContribution +
              (c.balance + c.monthlyContribution) *
                (c.annualReturnRate / 100 / 12) } :: cs =
        (pre ++
          [{ c with
            balance := c.balance + c.monthlyContribution +
              (c.balance + c.monthlyContribution) *
                (c.annualReturnRate / 100 / 12) }]) ++ cs
      by simp,
      show pre.length + 1 =
        (pre ++
          [{ c with
            balance := c.balance + c.monthlyContribution +
              (c.balance + c.monthlyContribution) *
                (c.annualReturnRate / 100 / 12) }]).length
      by simp]
    rw [ih]
    simp

theorem map_readLoan_range' (cur pre : List Loan) :
    (List.range' pre.length cur.length).map (readLoan (pre ++ cur)) = cur :=
  map_getD_range' default cur pre

theorem map_readInv_range' (cur pre : List Investment) :
    (List.range' pre.length cur.length).map (readInv (pre ++ cur)) = cur :=
  map_getD_range' default cur pre

theorem projLoopMut_spec (mI cb mE : ℚ) (preL : List Loan)
    (preI : List Investment) (k : ℕ) :
    ∀ (i : ℕ) (cash : ℚ) (curL : List Loan) (curI : List Investment),
      projLoopMut mI cb mE (List.range' preL.length curL.length)
          (List.range' preI.length curI.length) i k cash
          ⟨preL ++ curL, preI ++ curI⟩ =
        (projLoop mI cb mE i k cash curL curI,
          ⟨preL ++ (projLoopFinal mI cb mE k cash curL curI).2.1,
            preI ++ (projLoopFinal mI cb mE k cash curL curI).2.2⟩) := by
  induction k with
  | zero =>
    intro i cash curL curI
    simp only [projLoopMut, projLoop, projLoopFinal, monthEntryMut]
    rw [map_readLoan_range', map_readInv_range']
  | succ k ih =>
    intro i cash curL curI
    simp only [projLoopMut, projLoop, projLoopFinal, monthEntryMut]
    rw [map_readLoan_range', map_readInv_range']
    rw [processLoansMut_spec, processInvestmentsMut_spec]
    rw [show List.range' preL.length curL.length =
          List.range' preL.length
            (processLoans (cash + mI + cb - mE) curL).2.length
        by rw [processLoans_length],
      show List.range' preI.length curI.length =
          List.range' preI.length
            (processInvestments
              (processLoans (cash + mI + cb - mE) curL).1 curI).2.length
        by rw [processInvestments_length]]
    rw [ih]

/-- The store-level generateProjectionData, at a non-negative horizon,
produces exactly the pure projection of the dereferenced snapshot, and a
final store of the shape: original objects, then the fully simulated
clones. -/
theorem generateProjectionDataMut_spec (store : Store)
    (s : FinancialStateRef) (months : ℤ) (hm : ¬ months < 0) :
    generateProjectionDataMut store s months =
      (generateProjectionData (derefState store s) months,
        ⟨store.loanObjs ++
            (projLoopFinal (monthlyIncomeOf (derefState store s))
              (estimatedMonthlyCashback (derefState store s))
              (monthlyExpensesOf (derefState store s)) months.toNat
              s.cashBalance (derefState store s).loans
              (derefState store s).investments).2.1,
          store.invObjs ++
            (projLoopFinal (monthlyIncomeOf (derefState store s))
              (estimatedMonthlyCashback (derefState store s))
              (monthlyExpensesOf (derefState store s)) months.toNat
              s.cashBalance (derefState store s).loans
              (derefState store s).investments).2.2⟩) := by
  have hclL : (s.loanRefs.map fun r => cloneLoan (readLoan store.loanObjs r)) =
      (derefState store s).loans := by
    simp only [derefState]
    exact List.map_congr_left fun r _ => cloneLoan_eq _
  have hclI : (s.invRefs.map fun r => cloneInvestment (readInv store.invObjs r)) =
      (derefState store s).investments := by
    simp only [derefState]
    exact List.map_congr_left fun r _ => cloneInvestment_eq _
  have hlenL : s.loanRefs.length = (derefState store s).loans.length := by
    simp [derefState]
  have hlenI : s.invRefs.length = (derefState store s).investments.length := by
    simp [derefState]
  simp only [generateProjectionDataMut, generateProjectionData, hm,
    if_neg, if_false]
  rw [hclL, hclI, hlenL, hlenI, projLoopMut_spec]
  rw [map_cloneLoan, map_cloneInvestment]
  rfl

/-- Objects allocated past the end of the store never change what the
caller's references see. -/
theorem derefState_append (store : Store) (s : FinancialStateRef)
    (X : List Loan) (Y : List Investment)
    (hL : ∀ r ∈ s.loanRefs, r < store.loanObjs.length)
    (hI : ∀ r ∈ s.invRefs, r < store.invObjs.length) :
    derefState ⟨store.loanObjs ++ X, store.invObjs ++ Y⟩ s =
      derefState store s := by
  simp only [derefState, FinancialState.mk.injEq, true_and, and_true]
  constructor
  · exact List.map_congr_left fun r hr =>
      List.getD_append store.loanObjs X default r (hL r hr)
  · exact List.map_congr_left fun r hr =>
      List.getD_append store.invObjs Y default r (hI r hr)

/-- C2.  generateProjectionData leaves its argument completely unchanged:
under JavaScript object semantics (the explicit store), every loan and
investment object the caller's state references holds exactly the same
value after the call as before — the loop mutates only the freshly
allocated clones; the produced sequence is exactly the pure projection of
the dereferenced snapshot; and calling the projection twice on the same
unmodified state yields two identical sequences. -/
theorem projection_preserves_snapshot_and_idempotent (store : Store)
    (s : FinancialStateRef) (months : ℤ)
    (hL : ∀ r ∈ s.loanRefs, r < store.loanObjs.length)
    (hI : ∀ r ∈ s.invRefs, r < store.invObjs.length) :
    derefState (generateProjectionDataMut store s months).2 s =
      derefState store s ∧
    (generateProjectionDataMut store s months).1 =
      generateProjectionData (derefState store s) months ∧
    (generateProjectionDataMut
        (generateProjectionDataMut store s months).2 s months).1 =
      (generateProjectionDataMut store s months).1 := by
  by_cases hm : months < 0
  · simp [generateProjectionDataMut, generateProjectionData, hm]
  · have hspec := generateProjectionDataMut_spec store s months hm
    have hframe : derefState (generateProjectionDataMut store s months).2 s =
        derefState store s := by
      rw [hspec]
      exact derefState_append store s _ _ hL hI
    refine ⟨hframe, by rw [hspec], ?_⟩
    calc (generateProjectionDataMut
            (generateProjectionDataMut store s months).2 s months).1
        = generateProjectionData
            (derefState (generateProjectionDataMut store s months).2 s)
            months := by
          rw [generateProjectionDataMut_spec
            (generateProjectionDataMut store s months).2 s months hm]
      _ = generateProjectionData (derefState store s) months := by
          rw [hframe]
      _ = (generateProjectionDataMut store s months).1 := by rw [hspec]

/-- Witness for C2 at a concrete one-loan, one-investment store and
horizon 1. -/
theorem projection_preserves_snapshot_and_idempotent_witness :
    (∀ r ∈ ([0] : List ℕ),
      r < (Store.mk [⟨25000, 18400, 45/10, 260, 120⟩]
            [⟨12500, 65/10, 200⟩]).loanObjs.length) ∧
    (∀ r ∈ ([0] : List ℕ),
      r < (Store.mk [⟨25000, 18400, 45/10, 260, 120⟩]
            [⟨12500, 65/10, 200⟩]).invObjs.length) ∧
    derefState
        (generateProjectionDataMut
          ⟨[⟨25000, 18400, 45/10, 260, 120⟩], [⟨12500, 65/10, 200⟩]⟩
          ⟨15400, 6200, [], [], [0], [0]⟩ 1).2
        ⟨15400, 6200, [], [], [0], [0]⟩ =
      derefState ⟨[⟨25000, 18400, 45/10, 260, 120⟩], [⟨12500, 65/10, 200⟩]⟩
        ⟨15400, 6200, [], [], [0], [0]⟩ :=
  ⟨by decide, by decide,
    (projection_preserves_snapshot_and_idempotent
      ⟨[⟨25000, 18400, 45/10, 260, 120⟩], [⟨12500, 65/10, 200⟩]⟩
      ⟨15400, 6200, [], [], [0], [0]⟩ 1 (by decide) (by decide)).1⟩

end FinAssist
